/-
Verification of the EpochLens timestamp converter
(`src/utils/converter.js`, constants from `src/utils/constants.js`).

The converter is a collection of pure functions over JS strings and numbers:
timestamp validation, seconds/milliseconds unit inference, calendar
formatting in several dialects, relative-time phrases, and a regex scan for
timestamp candidates in free text.

Embedding conventions:
* JS string values are modelled as Lean `String`.  The converter coerces
  every input through `String(value)` / `Number(value)` immediately, so a
  numeric input behaves exactly like its decimal string form and we model
  inputs by that string form.
* JS numbers that are known to be integers in the converter's range
  (|n| < 2^53, in fact < 2^43 for all reachable values) are modelled as
  `Nat`/`Int`; `Math.floor(a / b)` on such values is exact and is modelled
  as integer division.
* `NaN`-producing paths are modelled with `Option` (`none` = NaN).
* The host environment (current time, locale renderer, timezone database,
  local-time offset) is a read-only record `IntlEnv` passed explicitly;
  the source reads it through `Date`/`Intl`.  Formatting primitives that
  throw `RangeError` on an unrecognized `timeZone` identifier are modelled
  with `Except Unit`; ECMA-402 guarantees `"UTC"` is always recognized,
  recorded as the `resolvesUTC` field.  For the `"UTC"` timezone the
  calendar fields produced by `Intl.DateTimeFormat('en-US', ...)` are fully
  determined by the instant and are computed here from the proleptic
  Gregorian calendar; for other zones they depend on the host timezone
  database and come from the environment record.
-/

import Mathlib

set_option maxRecDepth 4000

/-! ## Constants (`src/utils/constants.js`) -/

/-- `MIN_TIMESTAMP_MS`: 2000-01-01T00:00:00Z in milliseconds. -/
def MIN_TIMESTAMP_MS : Nat := 946684800000

/-- `MAX_TIMESTAMP_MS`: 2100-01-01T00:00:00Z in milliseconds. -/
def MAX_TIMESTAMP_MS : Nat := 4102444800000

/-! ## JS string primitives -/

/-- The character class of the regex `\d`: the ASCII digits `0`-`9`
(code points 48-57). -/
def isAsciiDigit (c : Char) : Bool :=
  48 ≤ c.toNat && c.toNat ≤ 57

/-- The characters removed by `String.prototype.trim`: the ECMAScript
`WhiteSpace` and `LineTerminator` productions (tab, LF, VT, FF, CR, space,
NBSP, BOM, the Unicode `Zs` category, LS and PS), by code point. -/
def isJsWhitespace (c : Char) : Bool :=
  c.toNat = 9 || c.toNat = 10 || c.toNat = 11 || c.toNat = 12 ||
  c.toNat = 13 || c.toNat = 32 || c.toNat = 0xA0 || c.toNat = 0xFEFF ||
  c.toNat = 0x1680 || (0x2000 ≤ c.toNat && c.toNat ≤ 0x200A) ||
  c.toNat = 0x2028 || c.toNat = 0x2029 || c.toNat = 0x202F ||
  c.toNat = 0x205F || c.toNat = 0x3000

/-- `String.prototype.trim` on the character list. -/
def trimList (cs : List Char) : List Char :=
  ((cs.dropWhile isJsWhitespace).reverse.dropWhile isJsWhitespace).reverse

/-- `String(value).trim()`. -/
def jsTrim (s : String) : String :=
  String.mk (trimList s.data)

/-- Decimal value of a digit string, most significant digit first. -/
def digitsToNat (cs : List Char) : Nat :=
  cs.foldl (fun a c => 10 * a + (c.toNat - 48)) 0

/-- `Number(value)` for string values, modelled on the fragment the
converter exercises: a string whose trimmed form is a nonempty run of ASCII
decimal digits parses to its decimal value, and every other string is
modelled as NaN (`none`).  Real JS `Number` also parses signs, decimal
points, exponents, hex and the empty string, but every such form fails the
10-or-13-digit gate in `isValidTimestamp`, and a trimmed all-digit string is
never NaN, so on every input the functions below agree with the source. -/
def jsNumber (s : String) : Option Nat :=
  let t := trimList s.data
  if t ≠ [] ∧ t.all isAsciiDigit then some (digitsToNat t) else none

/-! ## Validation and unit inference (`converter.js`) -/

/-- The regex `/^\d{10}$|^\d{13}$/` applied to a whole string. -/
def tenOrThirteenDigits (s : String) : Bool :=
  (s.length = 10 || s.length = 13) && s.data.all isAsciiDigit

/-- `isValidTimestamp(value)`: `Number(value)` must not be NaN, the trimmed
string form must be exactly 10 or 13 ASCII digits, and the derived
millisecond value (`num * 1000` for a 10-digit string, `num` for 13) must
lie in `[MIN_TIMESTAMP_MS, MAX_TIMESTAMP_MS]`. -/
def isValidTimestamp (value : String) : Bool :=
  match jsNumber value with
  | none => false
  | some num =>
    let str := jsTrim value
    if !tenOrThirteenDigits str then false
    else
      let ms := if str.length = 10 then num * 1000 else num
      decide (MIN_TIMESTAMP_MS ≤ ms) && decide (ms ≤ MAX_TIMESTAMP_MS)

/-- `toMilliseconds(timestamp)`: trim, parse, and scale 10-digit (seconds)
values by 1000; `none` models the NaN that a non-numeric string produces. -/
def toMilliseconds (timestamp : String) : Option Nat :=
  let str := jsTrim timestamp
  (jsNumber str).map (fun num => if str.length = 10 then num * 1000 else num)

/-- `toDate(timestamp)`: `null` (`none`) for invalid input, otherwise the
`Date` holding `toMilliseconds(timestamp)` (a `Date` is its epoch-ms). -/
def toDate (timestamp : String) : Option Nat :=
  if !isValidTimestamp timestamp then none
  else toMilliseconds timestamp

/-! ## Relative-time formatting (`_formatRelative`) -/

/-- `_formatRelative(date)` with the implicit `new Date()` made explicit:
`now` and `date` are epoch milliseconds.  `Math.floor` on the nonnegative
quotients is `Nat` division. -/
def _formatRelative (now date : Int) : String :=
  let diff := now - date
  let absDiff := diff.natAbs
  let seconds := absDiff / 1000
  let minutes := seconds / 60
  let hours := minutes / 60
  let days := hours / 24
  let weeks := days / 7
  let months := days / 30
  let years := days / 365
  let vu : Nat × String :=
    if seconds < 60 then (seconds, "second")
    else if minutes < 60 then (minutes, "minute")
    else if hours < 24 then (hours, "hour")
    else if days < 7 then (days, "day")
    else if weeks < 4 then (weeks, "week")
    else if months < 12 then (months, "month")
    else (years, "year")
  let plural := if vu.1 ≠ 1 then "s" else ""
  if diff > 0 then
    if vu.1 = 0 then "just now"
    else toString vu.1 ++ " " ++ vu.2 ++ plural ++ " ago"
  else
    "in " ++ toString vu.1 ++ " " ++ vu.2 ++ plural

/-! ## Calendar computation for the `"UTC"` timezone

`_getDateParts` reads the calendar fields of an instant through
`Intl.DateTimeFormat('en-US', { timeZone, ... })`.  For `timeZone: "UTC"`
ECMA-402 prescribes exactly the proleptic Gregorian calendar on the epoch
milliseconds, computed here; the `en-US` month and weekday names are the
fixed CLDR English names. -/

/-- Gregorian civil date (year, month 1-12, day 1-31) from days since
1970-01-01, by the standard era decomposition. -/
def civilFromDays (z0 : Int) : Int × Nat × Nat :=
  let z := z0 + 719468
  let era := Int.fdiv z 146097
  let doe := (z - era * 146097).toNat
  let yoe := (doe - doe / 1460 + doe / 36524 - doe / 146096) / 365
  let doy := doe - (365 * yoe + yoe / 4 - yoe / 100)
  let mp := (5 * doy + 2) / 153
  let d := doy - (153 * mp + 2) / 5 + 1
  let m := if mp < 10 then mp + 3 else mp - 9
  let y : Int := (yoe : Int) + era * 400 + (if m ≤ 2 then 1 else 0)
  (y, m, d)

/-- CLDR `en-US` full month names (month 1-12). -/
def monthLongName (m : Nat) : String :=
  match m with
  | 1 => "January" | 2 => "February" | 3 => "March" | 4 => "April"
  | 5 => "May" | 6 => "June" | 7 => "July" | 8 => "August"
  | 9 => "September" | 10 => "October" | 11 => "November" | 12 => "December"
  | _ => ""

/-- CLDR `en-US` abbreviated month names (month 1-12). -/
def monthShortName (m : Nat) : String :=
  match m with
  | 1 => "Jan" | 2 => "Feb" | 3 => "Mar" | 4 => "Apr" | 5 => "May"
  | 6 => "Jun" | 7 => "Jul" | 8 => "Aug" | 9 => "Sep" | 10 => "Oct"
  | 11 => "Nov" | 12 => "Dec"
  | _ => ""

/-- CLDR `en-US` full weekday names (0 = Sunday .. 6 = Saturday). -/
def weekdayLongName (w : Nat) : String :=
  match w with
  | 0 => "Sunday" | 1 => "Monday" | 2 => "Tuesday" | 3 => "Wednesday"
  | 4 => "Thursday" | 5 => "Friday" | 6 => "Saturday"
  | _ => ""

/-- CLDR `en-US` abbreviated weekday names (0 = Sunday .. 6 = Saturday). -/
def weekdayShortName (w : Nat) : String :=
  match w with
  | 0 => "Sun" | 1 => "Mon" | 2 => "Tue" | 3 => "Wed" | 4 => "Thu"
  | 5 => "Fri" | 6 => "Sat"
  | _ => ""

/-- The record returned by `_getDateParts`. -/
structure DateParts where
  year : Int
  month : Nat
  day : Nat
  monthLong : String
  monthShort : String
  weekdayLong : String
  weekdayShort : String
  hour : Nat
  hour12 : Nat
  minute : Nat
  second : Nat
  millisecond : Nat
  ampm : String
  offset : String
  tzAbbr : String
deriving DecidableEq

/-- The read-only host environment the converter reaches through `Date` and
`Intl`: the current time, the locale renderer, the local timezone, and the
timezone database.  `resolves` says whether the host recognizes a string as
a `timeZone` identifier (an unrecognized one makes `Intl` constructors and
`toLocaleString` throw `RangeError`); ECMA-402 requires `"UTC"` to be
recognized (`resolvesUTC`).  `localeStringTz ms tz` / `localeStringLocal ms`
model `date.toLocaleString(undefined, opts)` with and without a `timeZone`
option for the fixed field set of the `locale` dialect; `localeDefault ms`
models the argumentless `date.toLocaleString()` used by the catch branch.
`getTimezoneOffset ms` is `date.getTimezoneOffset()`; `partsLocal` /
`partsTz` are `_getDateParts` results for the host's local zone and for
non-UTC zones from the host timezone database; `msField ms` is
`date.getMilliseconds()` (local-time based); `offsetStr` / `tzAbbr` model
the host-formatted offset and abbreviation strings parsed by
`_getTimezoneOffset` / `_getTimezoneAbbr`. -/
structure IntlEnv where
  now : Int
  resolves : String → Bool
  resolvesUTC : resolves "UTC" = true
  localeStringTz : Int → String → String
  localeStringLocal : Int → String
  localeDefault : Int → String
  getTimezoneOffset : Int → Int
  partsLocal : Int → DateParts
  partsTz : Int → String → DateParts
  msField : Int → Nat
  offsetStr : Int → String → String
  tzAbbrStr : Int → String → String

/-- `_getDateParts(date, "UTC")`: calendar fields of the instant in the UTC
proleptic Gregorian calendar, with the 12-hour clock and am/pm derived from
the 24-hour field exactly as the source does; `millisecond`, `offset` and
`tzAbbr` go through the host (`date.getMilliseconds()`,
`_getTimezoneOffset`, `_getTimezoneAbbr`). -/
def utcParts (env : IntlEnv) (ms : Int) : DateParts :=
  let days := Int.fdiv ms 86400000
  let msod := (ms - days * 86400000).toNat
  let ymd := civilFromDays days
  let hour := msod / 3600000
  let minute := msod / 60000 % 60
  let second := msod / 1000 % 60
  let dow := ((days + 4).emod 7).toNat
  { year := ymd.1, month := ymd.2.1, day := ymd.2.2,
    monthLong := monthLongName ymd.2.1, monthShort := monthShortName ymd.2.1,
    weekdayLong := weekdayLongName dow, weekdayShort := weekdayShortName dow,
    hour := hour,
    hour12 := if hour = 0 then 12 else if hour > 12 then hour - 12 else hour,
    minute := minute, second := second,
    millisecond := env.msField ms,
    ampm := if hour < 12 then "am" else "pm",
    offset := env.offsetStr ms "UTC", tzAbbr := env.tzAbbrStr ms "UTC" }

/-- `_getDateParts(date, timezone)`: `{}` options for `"local"` (host local
zone), otherwise `{ timeZone: timezone }`, whose `Intl` constructor throws
(`.error`) when the host does not recognize the identifier. -/
def _getDateParts (env : IntlEnv) (ms : Int) (timezone : String) :
    Except Unit DateParts :=
  if timezone = "local" then .ok (env.partsLocal ms)
  else if env.resolves timezone then
    if timezone = "UTC" then .ok (utcParts env ms) else .ok (env.partsTz ms timezone)
  else .error ()

/-! ## Custom-pattern formatting (`_formatCustom`) -/

/-- `s.padStart(n, c)`. -/
def padStart (n : Nat) (c : Char) (s : String) : String :=
  if n ≤ s.length then s
  else String.mk (List.replicate (n - s.length) c) ++ s

/-- `s.slice(-2)`: the last two characters (the whole string if shorter). -/
def sliceLast2 (s : String) : String :=
  String.mk (s.data.drop (s.length - 2))

/-- `String.prototype.toUpperCase` restricted to ASCII (the only values the
converter upcases are `"am"`/`"pm"`). -/
def asciiUpper (s : String) : String :=
  String.mk (s.data.map (fun c =>
    if 97 ≤ c.toNat ∧ c.toNat ≤ 122 then Char.ofNat (c.toNat - 32) else c))

/-- `String.prototype.toLowerCase` restricted to ASCII. -/
def asciiLower (s : String) : String :=
  String.mk (s.data.map (fun c =>
    if 65 ≤ c.toNat ∧ c.toNat ≤ 90 then Char.ofNat (c.toNat + 32) else c))

/-- One pass of `result.replace(new RegExp(token, 'g'), value)` on character
lists: leftmost, non-overlapping, and the inserted replacement is not
rescanned within the same pass.  (The tokens are letter-only, so the
`RegExp` matches the literal token, and the substituted values never contain
`$`, so the replacement string is literal too.) -/
def replaceListAux (pat rep : List Char) : Nat → List Char → List Char
  | _, [] => []
  | 0, cs => cs
  | fuel + 1, c :: rest =>
    if pat ≠ [] ∧ pat.isPrefixOf (c :: rest) then
      rep ++ replaceListAux pat rep fuel ((c :: rest).drop pat.length)
    else
      c :: replaceListAux pat rep fuel rest

/-- Scan `cs` for occurrences of `pat`.  The fuel `cs.length` dominates the
scan (each step consumes at least one character), so `replaceListAux` never
hits its fuel cutoff; the fuel only makes the recursion structural. -/
def replaceList (cs pat rep : List Char) : List Char :=
  replaceListAux pat rep cs.length cs

/-- `String`-level global replace. -/
def replaceStr (s pat rep : String) : String :=
  String.mk (replaceList s.data pat.data rep.data)

/-- The `tokens` table of `_formatCustom`, in the source's insertion order:
token ↦ substituted value. -/
def tokenTable (p : DateParts) : List (String × String) :=
  [("YYYY", toString p.year), ("YY", sliceLast2 (toString p.year)),
   ("MMMM", p.monthLong), ("MMM", p.monthShort),
   ("MM", padStart 2 '0' (toString p.month)), ("M", toString p.month),
   ("DD", padStart 2 '0' (toString p.day)), ("D", toString p.day),
   ("dddd", p.weekdayLong), ("ddd", p.weekdayShort),
   ("HH", padStart 2 '0' (toString p.hour)), ("H", toString p.hour),
   ("hh", padStart 2 '0' (toString p.hour12)), ("h", toString p.hour12),
   ("mm", padStart 2 '0' (toString p.minute)), ("m", toString p.minute),
   ("ss", padStart 2 '0' (toString p.second)), ("s", toString p.second),
   ("SSS", padStart 3 '0' (toString p.millisecond)),
   ("A", asciiUpper p.ampm), ("a", asciiLower p.ampm),
   ("Z", p.offset), ("z", p.tzAbbr)]

/-- `Object.keys(tokens).sort((a, b) => b.length - a.length)`: the token
names in length-descending order.  `Array.prototype.sort` is stable
(ES2019), so names of equal length keep the table's insertion order; this
list is that stable sort written out. -/
def sortedTokenKeys : List String :=
  ["YYYY", "MMMM", "dddd", "MMM", "ddd", "SSS",
   "YY", "MM", "DD", "HH", "hh", "mm", "ss",
   "M", "D", "H", "h", "m", "s", "A", "a", "Z", "z"]

/-- The replacement loop of `_formatCustom`: fold the global replaces over
the length-sorted token names. -/
def substituteTokens (p : DateParts) (pattern : String) : String :=
  sortedTokenKeys.foldl
    (fun result token => replaceStr result token (((tokenTable p).lookup token).getD ""))
    pattern

/-- `_formatCustom(date, pattern, timezone)`: get the parts in the target
timezone (which can throw on an unrecognized timezone) and substitute the
tokens. -/
def _formatCustom (env : IntlEnv) (ms : Int) (pattern timezone : String) :
    Except Unit String :=
  (_getDateParts env ms timezone).map (fun p => substituteTokens p pattern)

/-! ## ISO and dialect dispatch (`_formatISO`, `formatDate`) -/

/-- `date.toISOString()`: the UTC instant as `YYYY-MM-DDTHH:mm:ss.sssZ`
(expanded-year form outside years 0-9999). -/
def toISOStringUTC (ms : Int) : String :=
  let days := Int.fdiv ms 86400000
  let msod := (ms - days * 86400000).toNat
  let ymd := civilFromDays days
  let year :=
    if 0 ≤ ymd.1 ∧ ymd.1 ≤ 9999 then padStart 4 '0' (toString ymd.1.toNat)
    else if ymd.1 < 0 then "-" ++ padStart 6 '0' (toString (-ymd.1).toNat)
    else "+" ++ padStart 6 '0' (toString ymd.1.toNat)
  year ++ "-" ++ padStart 2 '0' (toString ymd.2.1) ++ "-" ++
    padStart 2 '0' (toString ymd.2.2) ++ "T" ++
    padStart 2 '0' (toString (msod / 3600000)) ++ ":" ++
    padStart 2 '0' (toString (msod / 60000 % 60)) ++ ":" ++
    padStart 2 '0' (toString (msod / 1000 % 60)) ++ "." ++
    padStart 3 '0' (toString (msod % 1000)) ++ "Z"

/-- `_formatISO(date, timezone)`: local-offset form for `"local"`, canonical
`Z` form for `"UTC"`, otherwise the custom path with `YYYY-MM-DDTHH:mm:ss`. -/
def _formatISO (env : IntlEnv) (ms : Int) (timezone : String) :
    Except Unit String :=
  if timezone = "local" then
    let offset := -env.getTimezoneOffset ms
    let sign := if offset ≥ 0 then "+" else "-"
    let hours := padStart 2 '0' (toString (offset.natAbs / 60))
    let mins := padStart 2 '0' (toString (offset.natAbs % 60))
    let localMs := ms - env.getTimezoneOffset ms * 60000
    .ok (String.mk (toISOStringUTC localMs).data.dropLast ++ sign ++ hours ++ ":" ++ mins)
  else if timezone = "UTC" then .ok (toISOStringUTC ms)
  else _formatCustom env ms "YYYY-MM-DDTHH:mm:ss" timezone

/-- The `options` record of `formatDate`/`convert`, with the source's
destructuring defaults baked in.  `secondaryTimezone = ""` stands for the
absent/falsy value. -/
structure FormatOptions where
  format : String := "locale"
  customFormat : String := "YYYY-MM-DD HH:mm:ss"
  timezone : String := "local"
  showSecondaryTimezone : Bool := false
  secondaryTimezone : String := ""
deriving DecidableEq

/-- The first argument of `formatDate`: a valid `Date` (its epoch ms), a
`Date` holding `NaN`, or any non-`Date` value. -/
inductive DateArg where
  | valid (ms : Int)
  | invalidDate
  | notADate
deriving DecidableEq

/-- The `try` block of `formatDate`: the `switch` on `format`, where the
branches that pass a non-`"local"` timezone to a host primitive throw
(`.error`) when the host does not recognize it.  `case 'locale'` and
`default` share the `toLocaleString` branch. -/
def formatDateBody (env : IntlEnv) (ms : Int) (options : FormatOptions) :
    Except Unit String :=
  if options.format = "iso" then _formatISO env ms options.timezone
  else if options.format = "relative" then .ok (_formatRelative env.now ms)
  else if options.format = "custom" then
    _formatCustom env ms options.customFormat options.timezone
  else
    if options.timezone = "local" then .ok (env.localeStringLocal ms)
    else if env.resolves options.timezone then
      .ok (env.localeStringTz ms options.timezone)
    else .error ()

/-- `formatDate(date, options)`: `'Invalid Date'` for a non-`Date` or
`NaN` date, otherwise the `try` block with the catch falling back to the
argumentless `date.toLocaleString()`. -/
def formatDate (env : IntlEnv) (date : DateArg) (options : FormatOptions) :
    String :=
  match date with
  | .notADate => "Invalid Date"
  | .invalidDate => "Invalid Date"
  | .valid ms =>
    match formatDateBody env ms options with
    | .ok s => s
    | .error _ => env.localeDefault ms

/-! ## The conversion façade (`convert`) -/

/-- The result record of `convert`.  Fields the source leaves absent on the
failure path are `Option`s defaulting to `none`. -/
structure ConversionResult where
  success : Bool
  original : String
  error : Option String := none
  milliseconds : Option Nat := none
  seconds : Option Nat := none
  isSeconds : Option Bool := none
  date : Option Nat := none
  formatted : Option String := none
  secondaryFormatted : Option String := none
  relative : Option String := none
deriving DecidableEq

/-- `convert(timestamp, options)`: failure record on invalid input,
otherwise the populated record.  `isSeconds` is
`String(timestamp).length === 10` on the raw (untrimmed) string;
`secondaryFormatted` is added when `options.showSecondaryTimezone` is set
and `options.secondaryTimezone` is truthy (a nonempty string); `relative`
is added unconditionally.  In the success branch `toMilliseconds` cannot be
NaN (`toDate` already validated), so the `none` case is vacuous and maps to
the failure record. -/
def convert (env : IntlEnv) (timestamp : String) (options : FormatOptions) :
    ConversionResult :=
  match toDate timestamp with
  | none => { success := false, error := some "Invalid timestamp",
              original := timestamp }
  | some dateMs =>
    match toMilliseconds timestamp with
    | none => { success := false, error := some "Invalid timestamp",
                original := timestamp }
    | some ms =>
      let base : ConversionResult :=
        { success := true, original := timestamp,
          milliseconds := some ms, seconds := some (ms / 1000),
          isSeconds := some (timestamp.length == 10),
          date := some dateMs,
          formatted := some (formatDate env (.valid dateMs) options) }
      let secondaryOptions : FormatOptions :=
        { options with timezone := options.secondaryTimezone }
      let withSecondary :=
        if options.showSecondaryTimezone && (options.secondaryTimezone != "") then
          { base with
              secondaryFormatted := some (formatDate env (.valid dateMs) secondaryOptions) }
        else base
      { withSecondary with relative := some (_formatRelative env.now dateMs) }

/-! ## Scanning text for timestamps (`findTimestamps`) -/

/-- One entry of the `findTimestamps` result array. -/
structure FoundTimestamp where
  value : String
  index : Nat
  length : Nat
  isSeconds : Bool
deriving DecidableEq

/-- `\w`: the word characters `[A-Za-z0-9_]` of the regex word boundary. -/
def isWordChar (c : Char) : Bool :=
  isAsciiDigit c || (65 ≤ c.toNat && c.toNat ≤ 90) ||
  (97 ≤ c.toNat && c.toNat ≤ 122) || c = '_'

/-- `\b` at position `i` when the character at `i` is a word character
(every use below starts or is inside a digit run): there is a boundary iff
`i` is the start of the text or the previous character is not a word
character. -/
def boundaryBeforeWord (cs : List Char) (i : Nat) : Bool :=
  i == 0 || !isWordChar (cs.getD (i - 1) ' ')

/-- `\b` at position `j` when the character at `j - 1` is a word character:
there is a boundary iff `j` is the end of the text or the character at `j`
is not a word character. -/
def boundaryAfterWord (cs : List Char) (j : Nat) : Bool :=
  j == cs.length || !isWordChar (cs.getD j ' ')

/-- One attempt of `TIMESTAMP_REGEX` = `/\b(\d{10}|\d{13})\b/` at start
position `i`: try the alternative `\d{10}` and then `\d{13}` (they cannot
both match, since a successful `\d{10}\b` forbids an 11th digit), each
followed by the trailing word boundary.  Returns the match length. -/
def matchAt (cs : List Char) (i : Nat) : Option Nat :=
  if ((cs.drop i).take 10).length == 10 && ((cs.drop i).take 10).all isAsciiDigit
      && boundaryBeforeWord cs i && boundaryAfterWord cs (i + 10) then
    some 10
  else if ((cs.drop i).take 13).length == 13 && ((cs.drop i).take 13).all isAsciiDigit
      && boundaryBeforeWord cs i && boundaryAfterWord cs (i + 13) then
    some 13
  else none

/-- The body of the `while ((match = regex.exec(text)))` loop for the match
attempt at position `i`: on a regex match, keep it when `isValidTimestamp`
accepts the matched substring, recording value, index, length and the
seconds flag. -/
def findTimestampsAt (cs : List Char) (i : Nat) : Option FoundTimestamp :=
  match matchAt cs i with
  | none => none
  | some len =>
    let timestamp := String.mk ((cs.drop i).take len)
    if isValidTimestamp timestamp then
      some { value := timestamp, index := i, length := timestamp.length,
             isSeconds := timestamp.length == 10 }
    else none

/-- `findTimestamps(text)`: run the global regex over the text and keep the
matches that pass `isValidTimestamp`.  The `while (regex.exec(text))` loop
visits match start positions strictly left to right; because any two
matches of this regex are disjoint (a match cannot start inside another:
the preceding character would be a digit, so `\b` fails), scanning every
start position yields exactly the same match sequence. -/
def findTimestamps (text : String) : List FoundTimestamp :=
  (List.range text.data.length).filterMap (findTimestampsAt text.data)

/-! ## Specification-side definitions

These restate claim properties in the spec's words, to be compared with the
source-derived definitions above. -/

/-- The claimed characterization of `isValidTimestamp`: the string form
after trimming is exactly 10 or 13 ASCII digits (no sign, no decimal
point), and the derived milliseconds value (the number times 1000 for a
10-digit string, the number as-is for 13) lies in
`[946684800000, 4102444800000]`, both bounds inclusive. -/
def validTimestampSpec (value : String) : Bool :=
  let t := trimList value.data
  ((t.length = 10 || t.length = 13) && t.all isAsciiDigit) &&
    (let n := digitsToNat t
     let ms := if t.length = 10 then n * 1000 else n
     decide (946684800000 ≤ ms) && decide (ms ≤ 4102444800000))

/-- The amended claim's relative-time specification: with
`diff = now - instant` in milliseconds, a strictly positive `diff` selects
the past phrasing (rendered `"just now"` when the selected magnitude is 0,
which happens for sub-second diffs and for 28-29-day diffs where the 30-day
month division yields 0) and a non-positive `diff` — including exactly 0 —
selects the future `"in …"` phrasing; the unit comes from the divisor
ladder seconds(<60), minutes(<60), hours(<24), days(<7), weeks(<4),
months(<12, 30-day months), years (365-day years), and the unit word takes
a plural `s` when the magnitude is not 1. -/
def relativeSpec (now instant : Int) : String :=
  let diff := now - instant
  let a := diff.natAbs
  let vu : Nat × String :=
    if a / 1000 < 60 then (a / 1000, "second")
    else if a / 60000 < 60 then (a / 60000, "minute")
    else if a / 3600000 < 24 then (a / 3600000, "hour")
    else if a / 86400000 < 7 then (a / 86400000, "day")
    else if a / 604800000 < 4 then (a / 604800000, "week")
    else if a / 2592000000 < 12 then (a / 2592000000, "month")
    else (a / 31536000000, "year")
  let plural := if vu.1 ≠ 1 then "s" else ""
  if 0 < diff then
    (if vu.1 = 0 then "just now"
     else toString vu.1 ++ " " ++ vu.2 ++ plural ++ " ago")
  else "in " ++ toString vu.1 ++ " " ++ vu.2 ++ plural

/-- The claimed characterization of a `findTimestamps` result entry: a run
of ASCII digits of length exactly 10 or 13 standing at `index` in the text,
bounded on both sides by a word boundary (start/end of text or a non-word
character — which also makes the run maximal: no digit run of another
length, and no 10- or 13-digit window inside a longer run, can qualify),
passing `isValidTimestamp`, carried with its index, length and the
10-digit (seconds) flag. -/
def candidateSpec (text : String) (c : FoundTimestamp) : Bool :=
  let cs := text.data
  let run := (cs.drop c.index).take c.length
  (c.length == 10 || c.length == 13) &&
  (run.length == c.length) &&
  run.all isAsciiDigit &&
  boundaryBeforeWord cs c.index &&
  boundaryAfterWord cs (c.index + c.length) &&
  (c.value == String.mk run) &&
  isValidTimestamp c.value &&
  (c.isSeconds == (c.length == 10))

/-! ## A concrete host environment for witnesses -/

/-- A fixed `DateParts` record, standing in for host-supplied parts. -/
def sampleParts : DateParts :=
  { year := 1970, month := 1, day := 1, monthLong := "January",
    monthShort := "Jan", weekdayLong := "Thursday", weekdayShort := "Thu",
    hour := 0, hour12 := 12, minute := 0, second := 0, millisecond := 0,
    ampm := "am", offset := "+00:00", tzAbbr := "UTC" }

/-- A concrete host environment: a host whose timezone database knows only
`"UTC"`, with fixed locale renderings, an all-zero local offset, and clock
at 2023-12-05T16:00:00Z. -/
def sampleEnv : IntlEnv :=
  { now := 1701792000000,
    resolves := fun tz => tz == "UTC",
    resolvesUTC := rfl,
    localeStringTz := fun _ _ => "loc-tz",
    localeStringLocal := fun _ => "loc-local",
    localeDefault := fun _ => "loc-default",
    getTimezoneOffset := fun _ => 0,
    partsLocal := fun _ => sampleParts,
    partsTz := fun _ _ => sampleParts,
    msField := fun _ => 0,
    offsetStr := fun _ _ => "+00:00",
    tzAbbrStr := fun _ _ => "UTC" }

deriving instance DecidableEq for Except

/-! ## Basic lemmas about trimming and parsing -/

theorem isDigit_not_jsWhitespace {c : Char} (h : isAsciiDigit c = true) :
    isJsWhitespace c = false := by
  simp only [isAsciiDigit, Bool.and_eq_true, decide_eq_true_eq] at h
  simp only [isJsWhitespace, Bool.or_eq_false_iff, Bool.and_eq_false_iff,
    decide_eq_false_iff_not]
  omega

theorem trimList_all_digits {cs : List Char} (h : cs.all isAsciiDigit = true) :
    trimList cs = cs := by
  have hdrop : ∀ (l : List Char), l.all isAsciiDigit = true →
      l.dropWhile isJsWhitespace = l := by
    intro l hl
    cases l with
    | nil => rfl
    | cons c rest =>
      have hc : isAsciiDigit c = true := by
        simp only [List.all_cons, Bool.and_eq_true] at hl
        exact hl.1
      simp [List.dropWhile_cons, isDigit_not_jsWhitespace hc]
  have h1 : cs.dropWhile isJsWhitespace = cs := hdrop cs h
  have h2 : cs.reverse.all isAsciiDigit = true := by
    simp only [List.all_eq_true] at h ⊢
    intro c hc
    exact h c (List.mem_reverse.mp hc)
  simp [trimList, h1, hdrop cs.reverse h2]

/-! ## Lemmas about global replacement -/

theorem replaceListAux_noOccurrence (pat rep : List Char) :
    ∀ (fuel : Nat) (cs : List Char), ¬ pat <:+: cs →
      replaceListAux pat rep fuel cs = cs := by
  intro fuel
  induction fuel with
  | zero => intro cs _; cases cs <;> rfl
  | succ n ih =>
    intro cs h
    cases cs with
    | nil => rfl
    | cons c rest =>
      simp only [replaceListAux]
      rw [if_neg, ih rest (fun hinf => h (List.infix_cons hinf))]
      rintro ⟨_, hpre⟩
      exact h (List.isPrefixOf_iff_prefix.mp hpre).isInfix

/-- A global replace whose pattern occurs nowhere in the subject leaves the
subject unchanged (for any replacement value). -/
theorem replaceStr_noOccurrence (s pat rep : String)
    (h : ¬ pat.data <:+: s.data) : replaceStr s pat rep = s := by
  unfold replaceStr replaceList
  rw [replaceListAux_noOccurrence pat.data rep.data s.data.length s.data h]

/-- The date parts of the instant 1701792000000 (2023-12-05T16:00:00Z) in
timezone `"UTC"`: calendar fields are forced by the UTC calendar; the
millisecond field and the host-formatted offset and abbreviation strings
stay host-supplied. -/
theorem utcParts_1701792000000 (env : IntlEnv) : utcParts env 1701792000000 =
    { year := 2023, month := 12, day := 5, monthLong := "December",
      monthShort := "Dec", weekdayLong := "Tuesday", weekdayShort := "Tue",
      hour := 16, hour12 := 4, minute := 0, second := 0,
      millisecond := env.msField 1701792000000, ampm := "pm",
      offset := env.offsetStr 1701792000000 "UTC",
      tzAbbr := env.tzAbbrStr 1701792000000 "UTC" } := by rfl

/-- Substituting the tokens of `YYYY-MM-DD HH:mm:ss` for the parts of
2023-12-05T16:00:00Z yields `2023-12-05 16:00:00`, for any values of the
host-supplied millisecond, offset and abbreviation fields: every substituted
value is made of digits and separators, which no later token pass can
re-match. -/
theorem substituteTokens_ymdhms (msym : Nat) (osym tsym : String) :
    substituteTokens
      { year := 2023, month := 12, day := 5, monthLong := "December",
        monthShort := "Dec", weekdayLong := "Tuesday", weekdayShort := "Tue",
        hour := 16, hour12 := 4, minute := 0, second := 0,
        millisecond := msym, ampm := "pm", offset := osym, tzAbbr := tsym }
      "YYYY-MM-DD HH:mm:ss" = "2023-12-05 16:00:00" := by
  set p : DateParts :=
    { year := 2023, month := 12, day := 5, monthLong := "December",
      monthShort := "Dec", weekdayLong := "Tuesday", weekdayShort := "Tue",
      hour := 16, hour12 := 4, minute := 0, second := 0,
      millisecond := msym, ampm := "pm", offset := osym, tzAbbr := tsym }
    with hp
  have e1 : replaceStr "YYYY-MM-DD HH:mm:ss" "YYYY" (((tokenTable p).lookup "YYYY").getD "") = "2023-MM-DD HH:mm:ss" := by
    have hv : ((tokenTable p).lookup "YYYY").getD "" = toString p.year := rfl
    have hf : p.year = 2023 := by rw [hp]
    rw [hv, hf]; rfl
  have e2 : replaceStr "2023-MM-DD HH:mm:ss" "MMMM" (((tokenTable p).lookup "MMMM").getD "") = "2023-MM-DD HH:mm:ss" :=
    replaceStr_noOccurrence _ _ _ (by decide)
  have e3 : replaceStr "2023-MM-DD HH:mm:ss" "dddd" (((tokenTable p).lookup "dddd").getD "") = "2023-MM-DD HH:mm:ss" :=
    replaceStr_noOccurrence _ _ _ (by decide)
  have e4 : replaceStr "2023-MM-DD HH:mm:ss" "MMM" (((tokenTable p).lookup "MMM").getD "") = "2023-MM-DD HH:mm:ss" :=
    replaceStr_noOccurrence _ _ _ (by decide)
  have e5 : replaceStr "2023-MM-DD HH:mm:ss" "ddd" (((tokenTable p).lookup "ddd").getD "") = "2023-MM-DD HH:mm:ss" :=
    replaceStr_noOccurrence _ _ _ (by decide)
  have e6 : replaceStr "2023-MM-DD HH:mm:ss" "SSS" (((tokenTable p).lookup "SSS").getD "") = "2023-MM-DD HH:mm:ss" :=
    replaceStr_noOccurrence _ _ _ (by decide)
  have e7 : replaceStr "2023-MM-DD HH:mm:ss" "YY" (((tokenTable p).lookup "YY").getD "") = "2023-MM-DD HH:mm:ss" :=
    replaceStr_noOccurrence _ _ _ (by decide)
  have e8 : replaceStr "2023-MM-DD HH:mm:ss" "MM" (((tokenTable p).lookup "MM").getD "") = "2023-12-DD HH:mm:ss" := by
    have hv : ((tokenTable p).lookup "MM").getD "" = padStart 2 '0' (toString p.month) := rfl
    have hf : p.month = 12 := by rw [hp]
    rw [hv, hf]; rfl
  have e9 : replaceStr "2023-12-DD HH:mm:ss" "DD" (((tokenTable p).lookup "DD").getD "") = "2023-12-05 HH:mm:ss" := by
    have hv : ((tokenTable p).lookup "DD").getD "" = padStart 2 '0' (toString p.day) := rfl
    have hf : p.day = 5 := by rw [hp]
    rw [hv, hf]; rfl
  have e10 : replaceStr "2023-12-05 HH:mm:ss" "HH" (((tokenTable p).lookup "HH").getD "") = "2023-12-05 16:mm:ss" := by
    have hv : ((tokenTable p).lookup "HH").getD "" = padStart 2 '0' (toString p.hour) := rfl
    have hf : p.hour = 16 := by rw [hp]
    rw [hv, hf]; rfl
  have e11 : replaceStr "2023-12-05 16:mm:ss" "hh" (((tokenTable p).lookup "hh").getD "") = "2023-12-05 16:mm:ss" :=
    replaceStr_noOccurrence _ _ _ (by decide)
  have e12 : replaceStr "2023-12-05 16:mm:ss" "mm" (((tokenTable p).lookup "mm").getD "") = "2023-12-05 16:00:ss" := by
    have hv : ((tokenTable p).lookup "mm").getD "" = padStart 2 '0' (toString p.minute) := rfl
    have hf : p.minute = 0 := by rw [hp]
    rw [hv, hf]; rfl
  have e13 : replaceStr "2023-12-05 16:00:ss" "ss" (((tokenTable p).lookup "ss").getD "") = "2023-12-05 16:00:00" := by
    have hv : ((tokenTable p).lookup "ss").getD "" = padStart 2 '0' (toString p.second) := rfl
    have hf : p.second = 0 := by rw [hp]
    rw [hv, hf]; rfl
  have e14 : replaceStr "2023-12-05 16:00:00" "M" (((tokenTable p).lookup "M").getD "") = "2023-12-05 16:00:00" :=
    replaceStr_noOccurrence _ _ _ (by decide)
  have e15 : replaceStr "2023-12-05 16:00:00" "D" (((tokenTable p).lookup "D").getD "") = "2023-12-05 16:00:00" :=
    replaceStr_noOccurrence _ _ _ (by decide)
  have e16 : replaceStr "2023-12-05 16:00:00" "H" (((tokenTable p).lookup "H").getD "") = "2023-12-05 16:00:00" :=
    replaceStr_noOccurrence _ _ _ (by decide)
  have e17 : replaceStr "2023-12-05 16:00:00" "h" (((tokenTable p).lookup "h").getD "") = "2023-12-05 16:00:00" :=
    replaceStr_noOccurrence _ _ _ (by decide)
  have e18 : replaceStr "2023-12-05 16:00:00" "m" (((tokenTable p).lookup "m").getD "") = "2023-12-05 16:00:00" :=
    replaceStr_noOccurrence _ _ _ (by decide)
  have e19 : replaceStr "2023-12-05 16:00:00" "s" (((tokenTable p).lookup "s").getD "") = "2023-12-05 16:00:00" :=
    replaceStr_noOccurrence _ _ _ (by decide)
  have e20 : replaceStr "2023-12-05 16:00:00" "A" (((tokenTable p).lookup "A").getD "") = "2023-12-05 16:00:00" :=
    replaceStr_noOccurrence _ _ _ (by decide)
  have e21 : replaceStr "2023-12-05 16:00:00" "a" (((tokenTable p).lookup "a").getD "") = "2023-12-05 16:00:00" :=
    replaceStr_noOccurrence _ _ _ (by decide)
  have e22 : replaceStr "2023-12-05 16:00:00" "Z" (((tokenTable p).lookup "Z").getD "") = "2023-12-05 16:00:00" :=
    replaceStr_noOccurrence _ _ _ (by decide)
  have e23 : replaceStr "2023-12-05 16:00:00" "z" (((tokenTable p).lookup "z").getD "") = "2023-12-05 16:00:00" :=
    replaceStr_noOccurrence _ _ _ (by decide)
  unfold substituteTokens sortedTokenKeys
  simp only [List.foldl_cons, List.foldl_nil,
    e1, e2, e3, e4, e5, e6, e7, e8, e9, e10, e11, e12, e13, e14, e15, e16,
    e17, e18, e19, e20, e21, e22, e23]

/-! ## Lemmas about the timestamp scan -/

theorem isAsciiDigit_isWordChar {c : Char} (h : isAsciiDigit c = true) :
    isWordChar c = true := by
  simp [isWordChar, h]

theorem matchAt_sound {cs : List Char} {i L : Nat} (h : matchAt cs i = some L) :
    (L = 10 ∨ L = 13) ∧ ((cs.drop i).take L).length = L ∧
      ((cs.drop i).take L).all isAsciiDigit = true ∧
      boundaryBeforeWord cs i = true ∧ boundaryAfterWord cs (i + L) = true := by
  unfold matchAt at h
  split at h
  · obtain rfl : L = 10 := (Option.some.inj h).symm
    rename_i hc
    simp only [Bool.and_eq_true, beq_iff_eq] at hc
    exact ⟨Or.inl rfl, hc.1.1.1, hc.1.1.2, hc.1.2, hc.2⟩
  · split at h
    · obtain rfl : L = 13 := (Option.some.inj h).symm
      rename_i hc
      simp only [Bool.and_eq_true, beq_iff_eq] at hc
      exact ⟨Or.inr rfl, hc.1.1.1, hc.1.1.2, hc.1.2, hc.2⟩
    · exact absurd h (by simp)

theorem run_length_le {cs : List Char} {i L : Nat} (hL : 0 < L)
    (h : ((cs.drop i).take L).length = L) : i + L ≤ cs.length := by
  simp only [List.length_take, List.length_drop] at h
  omega

theorem run_digit_at {cs : List Char} {i L k : Nat}
    (hlen : ((cs.drop i).take L).length = L)
    (hdig : ((cs.drop i).take L).all isAsciiDigit = true)
    (hk : k < L) : isAsciiDigit (cs.getD (i + k) ' ') = true := by
  have hle : i + L ≤ cs.length := run_length_le (by omega) hlen
  have hik : i + k < cs.length := by omega
  rw [List.getD_eq_getElem _ _ hik]
  have hk2 : k < ((cs.drop i).take L).length := by rw [hlen]; exact hk
  have he : ((cs.drop i).take L)[k] = cs[i + k] := by
    rw [List.getElem_take, List.getElem_drop]
  rw [List.all_eq_true] at hdig
  have := hdig _ (List.getElem_mem hk2)
  rwa [he] at this

theorem matchAt_of_10 {cs : List Char} {i : Nat}
    (h1 : ((cs.drop i).take 10).length = 10)
    (h2 : ((cs.drop i).take 10).all isAsciiDigit = true)
    (h3 : boundaryBeforeWord cs i = true)
    (h4 : boundaryAfterWord cs (i + 10) = true) :
    matchAt cs i = some 10 := by
  have hc : (((cs.drop i).take 10).length == 10 && ((cs.drop i).take 10).all isAsciiDigit
      && boundaryBeforeWord cs i && boundaryAfterWord cs (i + 10)) = true := by
    simp [h1, h2, h3, h4]
  unfold matchAt
  rw [if_pos hc]

theorem matchAt_of_13 {cs : List Char} {i : Nat}
    (h1 : ((cs.drop i).take 13).length = 13)
    (h2 : ((cs.drop i).take 13).all isAsciiDigit = true)
    (h3 : boundaryBeforeWord cs i = true)
    (h4 : boundaryAfterWord cs (i + 13) = true) :
    matchAt cs i = some 13 := by
  have hle : i + 13 ≤ cs.length := run_length_le (by omega) h1
  have hdig : isAsciiDigit (cs.getD (i + 10) ' ') = true :=
    run_digit_at h1 h2 (by omega)
  have hafter : boundaryAfterWord cs (i + 10) = false := by
    unfold boundaryAfterWord
    have hne : (i + 10 == cs.length) = false := by
      simp only [beq_eq_false_iff_ne, ne_eq]
      omega
    rw [hne, isAsciiDigit_isWordChar hdig]
    rfl
  have hc1 : (((cs.drop i).take 10).length == 10 && ((cs.drop i).take 10).all isAsciiDigit
      && boundaryBeforeWord cs i && boundaryAfterWord cs (i + 10)) = false := by
    rw [hafter]
    simp
  have hc2 : (((cs.drop i).take 13).length == 13 && ((cs.drop i).take 13).all isAsciiDigit
      && boundaryBeforeWord cs i && boundaryAfterWord cs (i + 13)) = true := by
    simp [h1, h2, h3, h4]
  unfold matchAt
  rw [if_neg, if_pos hc2]
  rw [hc1]
  simp

theorem findTimestampsAt_eq_some {cs : List Char} {i : Nat} {a : FoundTimestamp}
    (h : findTimestampsAt cs i = some a) :
    a.index = i ∧ matchAt cs i = some a.length ∧
      a.value = String.mk ((cs.drop i).take a.length) ∧
      isValidTimestamp a.value = true ∧ a.isSeconds = (a.length == 10) := by
  unfold findTimestampsAt at h
  cases hmt : matchAt cs i with
  | none => rw [hmt] at h; exact absurd h (by simp)
  | some L =>
    rw [hmt] at h
    simp only at h
    by_cases hv : isValidTimestamp (String.mk ((cs.drop i).take L)) = true
    · rw [if_pos hv] at h
      have ha := (Option.some.inj h).symm
      have hlen : (String.mk ((cs.drop i).take L)).length = L :=
        (matchAt_sound hmt).2.1
      subst ha
      refine ⟨rfl, ?_, ?_, ?_, ?_⟩
      · simp only [hlen, hmt]
      · simp only [hlen]
      · exact hv
      · simp only [hlen]
    · rw [if_neg hv] at h
      exact absurd h (by simp)

theorem findTimestamps_mem_iff (text : String) (c : FoundTimestamp) :
    c ∈ findTimestamps text ↔ candidateSpec text c = true := by
  unfold findTimestamps
  rw [List.mem_filterMap]
  constructor
  · rintro ⟨i, hi, hf⟩
    have hx := findTimestampsAt_eq_some hf
    obtain ⟨hidx, hmt, hval, hvd, hsec⟩ := hx
    have hs := matchAt_sound hmt
    unfold candidateSpec
    subst hidx
    simp only [Bool.and_eq_true, beq_iff_eq, Bool.or_eq_true, decide_eq_true_eq]
    refine ⟨⟨⟨⟨⟨⟨⟨?_, ?_⟩, ?_⟩, ?_⟩, ?_⟩, ?_⟩, ?_⟩, ?_⟩
    · rcases hs.1 with h | h
      · exact Or.inl (by simp [h])
      · exact Or.inr (by simp [h])
    · simp [hs.2.1]
    · exact hs.2.2.1
    · exact hs.2.2.2.1
    · exact hs.2.2.2.2
    · simp [hval]
    · exact hvd
    · simp [hsec]
  · intro hspec
    unfold candidateSpec at hspec
    simp only [Bool.and_eq_true, beq_iff_eq, Bool.or_eq_true, decide_eq_true_eq] at hspec
    obtain ⟨⟨⟨⟨⟨⟨⟨hlen1013, hrunlen⟩, hdig⟩, hbb⟩, hba⟩, hval⟩, hvd⟩, hsec⟩ := hspec
    have hLpos : 0 < c.length := by rcases hlen1013 with h | h <;> omega
    have hle : c.index + c.length ≤ text.data.length := run_length_le hLpos hrunlen
    have hmt : matchAt text.data c.index = some c.length := by
      rcases hlen1013 with h10 | h13
      · rw [h10] at hrunlen hdig hba ⊢
        exact matchAt_of_10 hrunlen hdig hbb hba
      · rw [h13] at hrunlen hdig hba ⊢
        exact matchAt_of_13 hrunlen hdig hbb hba
    refine ⟨c.index, List.mem_range.mpr (by omega), ?_⟩
    unfold findTimestampsAt
    rw [hmt]
    simp only
    rw [← hval, if_pos hvd]
    congr 1
    have hlenv : c.value.length = c.length := by rw [hval]; simpa using hrunlen
    cases c with
    | mk v i l s =>
      simp only at hval hsec hlenv ⊢
      congr 1
      all_goals simp [hlenv, hsec]

theorem findTimestamps_pairwise (text : String) :
    (findTimestamps text).Pairwise (fun a b => a.index + a.length ≤ b.index) := by
  unfold findTimestamps
  apply List.Pairwise.filterMap (findTimestampsAt text.data) ?_ (List.pairwise_lt_range _)
  intro i j hij a ha b hb
  have hA := findTimestampsAt_eq_some ha
  have hB := findTimestampsAt_eq_some hb
  obtain ⟨hai, hamt, -, -, -⟩ := hA
  obtain ⟨hbj, hbmt, -, -, -⟩ := hB
  subst hai hbj
  by_contra hlt
  push_neg at hlt
  have hsA := matchAt_sound hamt
  have hsB := matchAt_sound hbmt
  have hk : isAsciiDigit (text.data.getD (a.index + (b.index - 1 - a.index)) ' ') = true :=
    run_digit_at hsA.2.1 hsA.2.2.1 (by omega)
  have hk2 : isAsciiDigit (text.data.getD (b.index - 1) ' ') = true := by
    have he : a.index + (b.index - 1 - a.index) = b.index - 1 := by omega
    rwa [he] at hk
  have hbb := hsB.2.2.2.1
  unfold boundaryBeforeWord at hbb
  have hne : (b.index == 0) = false := by
    simp only [beq_eq_false_iff_ne, ne_eq]
    omega
  rw [hne, isAsciiDigit_isWordChar hk2] at hbb
  exact absurd hbb (by simp)

/-! ## Claim theorems -/

/-- C1 (amended): `isValidTimestamp(value)` returns true iff the string
form of `value`, after trimming, consists of exactly 10 or 13 ASCII digits
(no sign, no decimal point) and the derived milliseconds value (the number
times 1000 for a 10-digit string, the number as-is for a 13-digit string)
satisfies `946684800000 ≤ ms ≤ 4102444800000`, both bounds inclusive; in
particular `isValidTimestamp("4102444800")` is true while
`isValidTimestamp("946684800")` (a 9-digit string, despite denoting the
minimum in seconds), `isValidTimestamp("12345")` and
`isValidTimestamp("12345678901")` are false. -/
theorem C1_isValidTimestamp_characterization :
    (∀ v : String, isValidTimestamp v = validTimestampSpec v) ∧
    isValidTimestamp "4102444800" = true ∧
    isValidTimestamp "946684800" = false ∧
    isValidTimestamp "12345" = false ∧
    isValidTimestamp "12345678901" = false := by
  refine ⟨?_, by decide, by decide, by decide, by decide⟩
  intro v
  unfold isValidTimestamp validTimestampSpec jsNumber jsTrim tenOrThirteenDigits
  set t := trimList v.data with ht
  by_cases h1 : t = []
  · simp [h1]
  · by_cases h2 : t.all isAsciiDigit = true
    · simp only [h1, h2, ne_eq, not_false_iff, true_and, if_pos]
      have hl : ({ data := t } : String).length = t.length := rfl
      simp only [hl, MIN_TIMESTAMP_MS, MAX_TIMESTAMP_MS]
      by_cases h3 : t.length = 10 ∨ t.length = 13
      · rcases h3 with h3 | h3 <;> simp [h3]
      · push_neg at h3
        simp [h3.1, h3.2]
    · simp [h1, h2]

/-- C1 counterexample: the claim asserts `isValidTimestamp("946684800")` is
true (946684800 s is exactly the lower window bound), but the string has
only 9 digits, so the 10-or-13-digit test rejects it. -/
theorem C1_counterexample_min_seconds_nine_digits :
    isValidTimestamp "946684800" = false := by decide

/-- C2: for every 10-digit numeric string `s`, `toMilliseconds(s)` is
`Number(s) * 1000`, and for every 13-digit numeric string,
`toMilliseconds(s)` is `Number(s)` (for an all-digit string `Number(s)` is
its decimal value `digitsToNat s.data`); the unit is inferred solely from
the digit count. -/
theorem C2_toMilliseconds_digit_count :
    ∀ s : String, s.data.all isAsciiDigit = true →
      (s.length = 10 → toMilliseconds s = some (digitsToNat s.data * 1000)) ∧
      (s.length = 13 → toMilliseconds s = some (digitsToNat s.data)) := by
  intro s hd
  have htrim : trimList s.data = s.data := trimList_all_digits hd
  have hJs : jsTrim s = s := by
    simp [jsTrim, htrim]
  constructor
  · intro h10
    have hne : s.data ≠ [] := by
      intro h
      rw [String.length, h] at h10
      simp at h10
    rw [toMilliseconds, hJs]
    rw [jsNumber]
    simp [htrim, hne, hd, h10]
  · intro h13
    have hne : s.data ≠ [] := by
      intro h
      rw [String.length, h] at h13
      simp at h13
    have hn10 : ¬ s.length = 10 := by rw [h13]; simp
    rw [toMilliseconds, hJs]
    rw [jsNumber]
    simp [htrim, hne, hd, hn10]

/-- C2 witness: the seconds string `"1701792000"` scales by 1000 and the
milliseconds string `"1701792000000"` passes through unchanged. -/
theorem C2_witness_concrete_values :
    toMilliseconds "1701792000" = some 1701792000000 ∧
    toMilliseconds "1701792000000" = some 1701792000000 := by
  constructor
  · have h := (C2_toMilliseconds_digit_count "1701792000" (by decide)).1 (by decide)
    rw [h]
    decide
  · have h := (C2_toMilliseconds_digit_count "1701792000000" (by decide)).2 (by decide)
    rw [h]
    decide

/-- C3: for every input failing `isValidTimestamp` and every options
record, `convert` returns (and never throws) the failure record with
`success = false`, the fixed reason `"Invalid timestamp"`, the original raw
value, and none of the numeric or formatted fields populated. -/
theorem C3_convert_invalid_failure_record :
    ∀ (env : IntlEnv) (v : String) (opts : FormatOptions),
      isValidTimestamp v = false →
      convert env v opts =
        { success := false, error := some "Invalid timestamp", original := v } := by
  intro env v opts h
  unfold convert toDate
  simp [h]

/-- C3 witness: `convert("not-a-timestamp", {})` is exactly the failure
record. -/
theorem C3_witness_not_a_timestamp :
    convert sampleEnv "not-a-timestamp" {} =
      { success := false, error := some "Invalid timestamp",
        original := "not-a-timestamp" } :=
  C3_convert_invalid_failure_record sampleEnv "not-a-timestamp" {} (by decide)

/-- C4: `findTimestamps(text)` returns exactly the validated candidates:
scanning `"id12345678901x"` yields nothing and `"ts=1701792000 done"`
yields the single candidate at index 3; membership is characterized by
`candidateSpec` (a 10- or 13-digit run bounded by word boundaries — so runs
of other lengths, and windows inside longer digit runs, are never
reported — passing `isValidTimestamp`); and the results are left-to-right
ordered and non-overlapping. -/
theorem C4_findTimestamps_characterization :
    findTimestamps "id12345678901x" = [] ∧
    findTimestamps "ts=1701792000 done" =
      [{ value := "1701792000", index := 3, length := 10, isSeconds := true }] ∧
    (∀ (text : String) (c : FoundTimestamp),
      c ∈ findTimestamps text ↔ candidateSpec text c = true) ∧
    (∀ text : String, (findTimestamps text).Pairwise
      (fun a b => a.index + a.length ≤ b.index)) :=
  ⟨by decide, by decide, findTimestamps_mem_iff, findTimestamps_pairwise⟩

/-- C4 witness: the candidate found in `"ts=1701792000 done"` satisfies the
specification predicate, through the characterization. -/
theorem C4_witness_candidate :
    candidateSpec "ts=1701792000 done"
      { value := "1701792000", index := 3, length := 10, isSeconds := true } = true :=
  (C4_findTimestamps_characterization.2.2.1 "ts=1701792000 done"
    { value := "1701792000", index := 3, length := 10, isSeconds := true }).mp
    (by decide)

/-- C5 (amended): relative formatting computes `diff = now - instant`;
a strictly positive `diff` yields the past phrasing — `"just now"` exactly
when the selected magnitude is 0, an `"... ago"` phrase otherwise — and a
non-positive `diff`, including exactly 0 ms, yields the future `"in ..."`
phrase, so 0 ms renders `"in 0 seconds"` (not `"just now"`); the unit comes
from the divisor ladder seconds(<60), minutes(<60), hours(<24), days(<7),
weeks(<4), months(<12, 30-day months), years(365-day years), pluralized
when the magnitude is not 1 (`relativeSpec` states this ladder); an instant
3600000 ms in the past renders `"1 hour ago"` and 172800000 ms in the
future renders `"in 2 days"`. -/
theorem C5_relative_time_ladder :
    (∀ t : Int, _formatRelative t t = "in 0 seconds") ∧
    (∀ t : Int, _formatRelative t (t - 3600000) = "1 hour ago") ∧
    (∀ t : Int, _formatRelative t (t + 172800000) = "in 2 days") ∧
    (∀ now instant : Int, _formatRelative now instant = relativeSpec now instant) := by
  refine ⟨?_, ?_, ?_, ?_⟩
  · intro t
    unfold _formatRelative
    simp only [show t - t = 0 from by ring]
    decide
  · intro t
    unfold _formatRelative
    simp only [show t - (t - 3600000) = 3600000 from by ring]
    decide
  · intro t
    unfold _formatRelative
    simp only [show t - (t + 172800000) = -172800000 from by ring]
    decide
  · intro n i
    unfold _formatRelative relativeSpec
    simp only [Nat.div_div_eq_div_mul]

/-- C5 counterexample: the claim asserts a difference of exactly 0 ms
renders `"just now"`, but `isPast` is `diff > 0`, so a zero diff takes the
future branch and renders `"in 0 seconds"`; `"just now"` is produced for
strictly positive sub-second diffs instead (also refuting that every
positive diff yields an `"ago"` phrase). -/
theorem C5_counterexample_zero_diff :
    _formatRelative 1701792000000 1701792000000 = "in 0 seconds" ∧
    _formatRelative 1701792001500 1701792001000 = "just now" := by
  constructor
  · decide
  · decide

/-- C6 (amended): custom-pattern formatting substitutes tokens
longest-first (the sorted key list is length-descending and a permutation
of the token table's keys), so no token is partially consumed by a shorter
token; a substituted literal value CAN however be re-matched by a later
token pass when it contains token letters (see the counterexample), though
values made only of digits and separators are immune: formatting
1701792000 s in timezone `"UTC"` with pattern `"YYYY-MM-DD HH:mm:ss"`
yields exactly `"2023-12-05 16:00:00"` on every host environment. -/
theorem C6_custom_pattern_longest_first :
    sortedTokenKeys.Pairwise (fun a b => b.length ≤ a.length) ∧
    sortedTokenKeys.Perm ((tokenTable sampleParts).map Prod.fst) ∧
    (∀ env : IntlEnv,
      _formatCustom env 1701792000000 "YYYY-MM-DD HH:mm:ss" "UTC" =
        .ok "2023-12-05 16:00:00") := by
  refine ⟨by decide, List.isPerm_iff.mp (by decide), ?_⟩
  intro env
  have hparts : _getDateParts env 1701792000000 "UTC" =
      .ok (utcParts env 1701792000000) := by
    unfold _getDateParts
    rw [if_neg (by decide), if_pos env.resolvesUTC, if_pos rfl]
  unfold _formatCustom
  rw [hparts, utcParts_1701792000000 env]
  exact congrArg Except.ok
    (substituteTokens_ymdhms (env.msField 1701792000000)
      (env.offsetStr 1701792000000 "UTC") (env.tzAbbrStr 1701792000000 "UTC"))

/-- C6 counterexample: the claim asserts no substituted literal value is
re-matched by a later token pass, but formatting 2023-12-05T16:00:00Z
(a Tuesday) with pattern `"dddd"` substitutes the weekday literal
`"Tuesday"`, whose letters `s` and `a` are then re-matched by the later
second and am/pm passes, producing `"Tue0dpmy"` instead of `"Tuesday"`. -/
theorem C6_counterexample_literal_rematch :
    _formatCustom sampleEnv 1701792000000 "dddd" "UTC" = .ok "Tue0dpmy" ∧
    (utcParts sampleEnv 1701792000000).weekdayLong = "Tuesday" := by
  constructor
  · decide
  · decide

/-- C7: `formatDate` on a valid instant always returns some string for
every dialect and timezone (the try/catch makes it total), and whenever the
host cannot resolve the requested non-`"local"` timezone on a dialect that
consults it (`locale`/default, `custom`, or `iso` on a zone other than
`"UTC"` — `relative` never consults the timezone), it falls back to the
locale-default, timezone-naive rendering `date.toLocaleString()` of the
same instant. -/
theorem C7_formatDate_total_with_fallback :
    ∀ (env : IntlEnv) (ms : Int) (opts : FormatOptions),
      (∃ s, formatDate env (.valid ms) opts = s) ∧
      (env.resolves opts.timezone = false → opts.timezone ≠ "local" →
       opts.format ≠ "relative" → ¬(opts.format = "iso" ∧ opts.timezone = "UTC") →
       formatDate env (.valid ms) opts = env.localeDefault ms) := by
  intro env ms opts
  refine ⟨⟨_, rfl⟩, ?_⟩
  intro hres htz hrel hiso
  have hbody : formatDateBody env ms opts = .error () := by
    unfold formatDateBody
    by_cases hF : opts.format = "iso"
    · have hUTC : opts.timezone ≠ "UTC" := fun h => hiso ⟨hF, h⟩
      simp [hF, _formatISO, htz, hUTC, _formatCustom, _getDateParts, hres, Except.map]
    · by_cases hC : opts.format = "custom"
      · simp [hF, hC, hrel, _formatCustom, _getDateParts, htz, hres, Except.map]
      · simp [hF, hC, hrel, htz, hres]
  simp [formatDate, hbody]

/-- C7 witness: with a host that resolves only `"UTC"`, the default
(`locale`) dialect with the unknown timezone `"Mars/Olympus"` falls back to
the locale-default rendering. -/
theorem C7_witness_unknown_timezone :
    (∃ s, formatDate sampleEnv (.valid 0) { timezone := "Mars/Olympus" } = s) ∧
    formatDate sampleEnv (.valid 0) { timezone := "Mars/Olympus" } =
      sampleEnv.localeDefault 0 :=
  ⟨(C7_formatDate_total_with_fallback sampleEnv 0 { timezone := "Mars/Olympus" }).1,
   (C7_formatDate_total_with_fallback sampleEnv 0 { timezone := "Mars/Olympus" }).2
     (by decide) (by decide) (by decide) (by decide)⟩

/-- C8 (amended): for every input accepted by `isValidTimestamp`, the
success record of `convert` has `milliseconds = toMilliseconds(value)`,
`seconds = floor(ms / 1000)`, a primary formatted string, an
unconditionally computed relative string, a secondary rendering exactly
when the show-secondary option is set together with a (truthy) secondary
timezone, and `isSeconds` true iff the raw, untrimmed string form has
length exactly 10 — for whitespace-free inputs this coincides with having
exactly 10 digits, but not in general (see the counterexample). -/
theorem C8_convert_success_fields :
    ∀ (env : IntlEnv) (v : String) (opts : FormatOptions) (m : Nat),
      isValidTimestamp v = true → toMilliseconds v = some m →
      (convert env v opts).success = true ∧
      (convert env v opts).milliseconds = some m ∧
      (convert env v opts).seconds = some (m / 1000) ∧
      (convert env v opts).formatted = some (formatDate env (.valid m) opts) ∧
      (convert env v opts).secondaryFormatted =
        (if opts.showSecondaryTimezone && (opts.secondaryTimezone != "") then
          some (formatDate env (.valid m)
            { opts with timezone := opts.secondaryTimezone })
        else none) ∧
      (convert env v opts).relative = some (_formatRelative env.now m) ∧
      (convert env v opts).isSeconds = some (v.length == 10) := by
  intro env v opts m hv hm
  have htd : toDate v = some m := by
    unfold toDate
    rw [hv]
    simpa using hm
  unfold convert
  rw [htd, hm]
  by_cases hs : opts.showSecondaryTimezone = true ∧ ¬opts.secondaryTimezone = ""
  · simp [hs]
  · simp [hs]

/-- C8 witness: converting `"1701792000"` with default options populates
every claimed field. -/
theorem C8_witness_seconds_input :
    (convert sampleEnv "1701792000" {}).success = true ∧
    (convert sampleEnv "1701792000" {}).milliseconds = some 1701792000000 ∧
    (convert sampleEnv "1701792000" {}).seconds = some (1701792000000 / 1000) ∧
    (convert sampleEnv "1701792000" {}).formatted =
      some (formatDate sampleEnv (.valid 1701792000000) {}) ∧
    (convert sampleEnv "1701792000" {}).secondaryFormatted =
      (if ({} : FormatOptions).showSecondaryTimezone &&
          (({} : FormatOptions).secondaryTimezone != "") then
        some (formatDate sampleEnv (.valid 1701792000000)
          { ({} : FormatOptions) with
              timezone := ({} : FormatOptions).secondaryTimezone })
      else none) ∧
    (convert sampleEnv "1701792000" {}).relative =
      some (_formatRelative sampleEnv.now 1701792000000) ∧
    (convert sampleEnv "1701792000" {}).isSeconds =
      some (("1701792000" : String).length == 10) :=
  C8_convert_success_fields sampleEnv "1701792000" {} 1701792000000
    (by decide) (by decide)

/-- C8 counterexample: the claim ties `isSeconds` to the digit count, but
the source computes it from the untrimmed string length: the accepted input
`" 1701792000"` (10 digits plus a leading space) is interpreted as seconds
(`milliseconds = 1701792000 * 1000`) yet gets `isSeconds = false` because
`String(value).length` is 11. -/
theorem C8_counterexample_untrimmed_length :
    isValidTimestamp " 1701792000" = true ∧
    ((" 1701792000" : String).data.filter isAsciiDigit).length = 10 ∧
    (convert sampleEnv " 1701792000" {}).milliseconds = some 1701792000000 ∧
    (convert sampleEnv " 1701792000" {}).isSeconds = some false := by
  refine ⟨by decide, by decide, by decide, by decide⟩

/-- C9: `convert` is deterministic — two calls with identical value,
options and host environment (the environment carries the only implicit
inputs: the current time and the locale/timezone database) return identical
result records.  The embedding is a pure function of exactly these inputs
because the source holds no mutable state between calls. -/
theorem C9_convert_deterministic :
    ∀ (env₁ env₂ : IntlEnv) (v₁ v₂ : String) (o₁ o₂ : FormatOptions),
      env₁ = env₂ → v₁ = v₂ → o₁ = o₂ →
      convert env₁ v₁ o₁ = convert env₂ v₂ o₂ := by
  intro _ _ _ _ _ _ h1 h2 h3
  rw [h1, h2, h3]

/-- C9 witness: a repeated call on the same concrete arguments. -/
theorem C9_witness_repeat_call :
    convert sampleEnv "1701792000" {} = convert sampleEnv "1701792000" {} :=
  C9_convert_deterministic sampleEnv sampleEnv "1701792000" "1701792000" {} {}
    rfl rfl rfl

/-- C10: `formatDate` on a non-`Date` argument, or on a `Date` holding
`NaN`, returns exactly the sentinel `"Invalid Date"` for every options
record and host environment (no dialect dispatch, no timezone lookup). -/
theorem C10_formatDate_invalid_date_sentinel :
    ∀ (env : IntlEnv) (opts : FormatOptions),
      formatDate env .invalidDate opts = "Invalid Date" ∧
      formatDate env .notADate opts = "Invalid Date" :=
  fun _ _ => ⟨rfl, rfl⟩
